import Mathlib

/-!
Verification development for the olympic-medals dashboard script
(`app_dash.py`).  The data preparation, the dropdown option lists and the
four chart-update callbacks are embedded as executable Lean functions over
an explicit row list; a raised exception is modelled as `Except.error`.
-/

/-- One row of the raw CSV table, after column validation. -/
structure RawRow where
  year : Nat
  host_country : String
  host_city : String
  country_Name : String
  country_Code : String
  gold : Nat
  silver : Nat
  bronze : Nat
deriving DecidableEq

/-- One row of the prepared table `df`: year-filtered and carrying the
derived `Total_Medals` column. -/
structure PRow where
  year : Nat
  host_country : String
  host_city : String
  country_Name : String
  country_Code : String
  gold : Nat
  silver : Nat
  bronze : Nat
  total_Medals : Nat
deriving DecidableEq

/-- The country-name canonicalisation applied by
`df_full['Country_Name'].replace('United States', 'United States of America')`. -/
def replaceCountry (s : String) : String :=
  if s = ("United States") then ("United States of America") else s

/-- Loader side effect: rewrite `Country_Name` on every row of the raw table. -/
def loadClean (raw : List RawRow) : List RawRow :=
  raw.map (fun r =>
    { year := r.year, host_country := r.host_country, host_city := r.host_city,
      country_Name := replaceCountry r.country_Name, country_Code := r.country_Code,
      gold := r.gold, silver := r.silver, bronze := r.bronze })

/-- Preparation: keep rows with `1992 <= Year <= 2020` and derive
`Total_Medals = Gold + Silver + Bronze`
(`df = df_full[(df_full['Year'] >= 1992) & (df_full['Year'] <= 2020)]`,
`df['Total_Medals'] = df['Gold'] + df['Silver'] + df['Bronze']`). -/
def prepare (raw : List RawRow) : List PRow :=
  ((loadClean raw).filter (fun r => decide (1992 ≤ r.year) && decide (r.year ≤ 2020))).map
    (fun r =>
      { year := r.year, host_country := r.host_country, host_city := r.host_city,
        country_Name := r.country_Name, country_Code := r.country_Code,
        gold := r.gold, silver := r.silver, bronze := r.bronze,
        total_Medals := r.gold + r.silver + r.bronze })

/-- Duplicate removal keeping the first occurrence, as pandas
`unique` / `drop_duplicates` do. -/
def dedupFirst {α : Type} [DecidableEq α] : List α → List α
  | [] => []
  | a :: l => a :: (dedupFirst l).filter (fun x => decide (¬ x = a))

/-- Lexicographic code-point comparison of character lists (non-strict), the
order Python `sorted` uses on strings. -/
def charListLe : List Char → List Char → Bool
  | [], _ => true
  | _ :: _, [] => false
  | a :: as, b :: bs =>
    if a.toNat < b.toNat then true
    else if b.toNat < a.toNat then false
    else charListLe as bs

/-- Lexicographic code-point comparison of character lists (strict). -/
def charListLt : List Char → List Char → Bool
  | [], [] => false
  | [], _ :: _ => true
  | _ :: _, [] => false
  | a :: as, b :: bs =>
    if a.toNat < b.toNat then true
    else if b.toNat < a.toNat then false
    else charListLt as bs

/-- Non-strict lexicographic order on strings. -/
abbrev strLe (a b : String) : Prop := charListLe a.data b.data = true

/-- Strict lexicographic order on strings. -/
abbrev strLt (a b : String) : Prop := charListLt a.data b.data = true

/-- The sorted distinct country list `all_countries = sorted(df['Country_Name'].unique())`. -/
def all_countries (tbl : List PRow) : List String :=
  List.insertionSort strLe (dedupFirst (tbl.map PRow.country_Name))

/-- The medal-type dropdown values `medal_types`. -/
def medal_types : List String :=
  [("Gold"), ("Silver"), ("Bronze"), ("Total_Medals")]

/-- A year-dropdown value: the `'All'` sentinel or a concrete year. -/
inductive YearVal where
  | all : YearVal
  | year : Nat → YearVal
deriving DecidableEq

/-- One entry of the `year_options` dropdown list. -/
structure YearOption where
  label : String
  value : YearVal
deriving DecidableEq

/-- Ordering used by `sort_values('Year')`: compare the year component. -/
abbrev yearLe (a b : Nat × String × String) : Prop := a.1 ≤ b.1

instance : IsTotal (Nat × String × String) yearLe :=
  ⟨fun a b => Nat.le_total a.1 b.1⟩

instance : IsTrans (Nat × String × String) yearLe :=
  ⟨fun _ _ _ h1 h2 => Nat.le_trans h1 h2⟩

/-- The distinct `(Year, Host_city, Host_country)` triples of `df`, sorted by year
(`df[['Year', 'Host_city', 'Host_country']].drop_duplicates().sort_values('Year')`). -/
def year_host_info (tbl : List PRow) : List (Nat × String × String) :=
  List.insertionSort yearLe
    (dedupFirst (tbl.map (fun r => (r.year, r.host_city, r.host_country))))

/-- Label of the `'All'` sentinel year option. -/
def allYearsLabel : String := ("Todos os anos (1992-2020)")

/-- Label of a concrete year option: `f"{Year} - {Host_city}, {Host_country}"`. -/
def yearOptionLabel (t : Nat × String × String) : String :=
  (toString t.1) ++ (" - ") ++ t.2.1 ++ (", ") ++ t.2.2

/-- The year dropdown options: the `'All'` sentinel prepended to one option
per distinct host triple. -/
def year_options (tbl : List PRow) : List YearOption :=
  { label := allYearsLabel, value := YearVal.all } ::
    (year_host_info tbl).map (fun t => { label := yearOptionLabel t, value := YearVal.year t.1 })

/-- A rendered chart specification: the observable content of the figures the
four callbacks build (`px.pie` / `px.choropleth` / `px.area` / `px.bar`). -/
structure Chart where
  kind : String
  title : String
  annots : List String
  points : List (String × Nat)
  seriesPoints : List (String × Nat × Nat)
  colorMap : List (String × String)
  markerColor : Option String
  colorScale : Option String
  xCategory : Bool
deriving DecidableEq

/-- Column selection by name: `df[medal_col]`.  An unknown column name is the
one way a callback can raise (a pandas `KeyError`). -/
def colFn : String → Option (PRow → Nat)
  | "Gold" => Option.some PRow.gold
  | "Silver" => Option.some PRow.silver
  | "Bronze" => Option.some PRow.bronze
  | "Total_Medals" => Option.some PRow.total_Medals
  | _ => Option.none

/-- Error message for a failed column selection. -/
def keyError (m : String) : String := ("KeyError: ") ++ m

/-- Embedding of `groupby(key)[col].sum()` with the default sorted group keys:
one `(key, sum)` pair per distinct key, keys sorted by `r`. -/
def groupSum {κ : Type} [DecidableEq κ] (r : κ → κ → Prop) [DecidableRel r]
    (key : PRow → κ) (v : PRow → Nat) (rows : List PRow) : List (κ × Nat) :=
  (List.insertionSort r (dedupFirst (rows.map key))).map
    (fun k => (k, ((rows.filter (fun x => decide (key x = k))).map v).sum))

/-- Embedding of pandas `nlargest(n)` with the default `keep='first'`:
stable sort by value descending, then take the first `n`. -/
def nlargestBy {α : Type} (n : Nat) (v : α → Nat) (l : List α) : List α :=
  (List.insertionSort (fun x y => v y ≤ v x) l).take n

/-- Per-country totals `groupby('Country_Name')[medal_col].sum()`. -/
def countryTotals (tbl : List PRow) (v : PRow → Nat) : List (String × Nat) :=
  groupSum strLe PRow.country_Name v tbl

/-- The `top_10_countries_overall` index of the area callback:
`df.groupby('Country_Name')[medal_col].sum().nlargest(10).index`. -/
def top10Countries (tbl : List PRow) (v : PRow → Nat) : List String :=
  (nlargestBy 10 Prod.snd (countryTotals tbl v)).map Prod.fst

/-- Placeholder pie figure when no country is selected. -/
def pieNoCountryFig : Chart :=
  { kind := ("pie"), title := ("Por favor, selecione um país"),
    annots := [("Nenhum país selecionado")], points := [], seriesPoints := [],
    colorMap := [], markerColor := Option.none, colorScale := Option.none, xCategory := false }

/-- Placeholder pie figure when the selected country has no rows in range. -/
def pieNoDataFig (c : String) : Chart :=
  { kind := ("pie"), title := ("Sem dados para ") ++ c ++ (" (1992-2020)"),
    annots := [("Dados não disponíveis")], points := [], seriesPoints := [],
    colorMap := [], markerColor := Option.none, colorScale := Option.none, xCategory := false }

/-- Fixed slice colour mapping of the pie chart. -/
def pieMedalColorMap : List (String × String) :=
  [(("Ouro"), ("gold")), (("Prata"), ("silver")), (("Bronze"), ("#cd7f32"))]

/-- Populated pie figure with the three medal slices of the selected country. -/
def pieFig (c : String) (g s b : Nat) : Chart :=
  { kind := ("pie"), title := ("Distribuição de Medalhas de ") ++ c ++ (" (1992-2020)"),
    annots := [], points := [(("Ouro"), g), (("Prata"), s), (("Bronze"), b)],
    seriesPoints := [], colorMap := pieMedalColorMap, markerColor := Option.none,
    colorScale := Option.none, xCategory := false }

/-- The pie callback `update_pie_chart(selected_country)`. -/
def update_pie_chart (tbl : List PRow) : Option String → Except String Chart
  | Option.none => Except.ok pieNoCountryFig
  | Option.some s =>
    if s.isEmpty then Except.ok pieNoCountryFig
    else
      let country_data := tbl.filter (fun r => decide (r.country_Name = s))
      if country_data.isEmpty then Except.ok (pieNoDataFig s)
      else
        Except.ok (pieFig s ((country_data.map PRow.gold).sum)
          ((country_data.map PRow.silver).sum) ((country_data.map PRow.bronze).sum))

/-- Choropleth figure of the map callback. -/
def mapFig (m : String) (mdata : List (String × Nat)) : Chart :=
  { kind := ("choropleth"),
    title := ("Total de ") ++ (m.replace ("_") (" ")) ++ (" por país (1992-2020)"),
    annots := [], points := mdata, seriesPoints := [], colorMap := [],
    markerColor := Option.none, colorScale := Option.some ("YlOrRd"), xCategory := false }

/-- The map callback `update_map_chart(selected_medal_type)`. -/
def update_map_chart (tbl : List PRow) (m : String) : Except String Chart :=
  match colFn m with
  | Option.none => Except.error (keyError m)
  | Option.some v => Except.ok (mapFig m (countryTotals tbl v))

/-- Lexicographic order on `(Country_Name, Year)` group keys. -/
abbrev pairLe (a b : String × Nat) : Prop := strLt a.1 b.1 ∨ (a.1 = b.1 ∧ a.2 ≤ b.2)

/-- Area figure: one `(country, year, value)` point per kept group. -/
def areaFig (m : String) (pts : List (String × Nat × Nat)) : Chart :=
  { kind := ("area"),
    title := ("Top 10 países por ") ++ (m.replace ("_") (" ")) ++ (" (1992-2020)"),
    annots := [], points := [], seriesPoints := pts, colorMap := [],
    markerColor := Option.none, colorScale := Option.none, xCategory := true }

/-- The area callback `update_area_chart(selected_medal_type)`. -/
def update_area_chart (tbl : List PRow) (m : String) : Except String Chart :=
  match colFn m with
  | Option.none => Except.error (keyError m)
  | Option.some v =>
    let cym := groupSum pairLe (fun r => (r.country_Name, r.year)) v tbl
    let dfTop := cym.filter (fun p => decide (p.1.1 ∈ top10Countries tbl v))
    Except.ok (areaFig m (dfTop.map (fun p => (p.1.1, p.1.2, p.2))))

/-- The year segment of the bar-chart title: the fixed label for `'All'`,
otherwise the label of the matching year option, falling back to the raw
value's string form when no option matches. -/
def yearTitleSegment (tbl : List PRow) : YearVal → String
  | YearVal.all => allYearsLabel
  | YearVal.year yv =>
    match (year_options tbl).find? (fun o => decide (o.value = YearVal.year yv)) with
    | Option.some o => o.label
    | Option.none => toString yv

/-- Fixed bar colour per single-medal metric (`bar_color_val`). -/
def barColor : String → Option String
  | "Gold" => Option.some ("gold")
  | "Silver" => Option.some ("silver")
  | "Bronze" => Option.some ("#cd7f32")
  | _ => Option.none

/-- Bar figure over the grouped top-10 rows. -/
def barFig (m seg : String) (grouped : List (String × Nat)) : Chart :=
  { kind := ("bar"),
    title := ("Top 10 países por ") ++ (m.replace ("_") (" ")) ++ (" em ") ++ seg,
    annots := [], points := grouped, seriesPoints := [], colorMap := [],
    markerColor := barColor m, colorScale := Option.none, xCategory := false }

/-- The bar callback `update_bar_chart(selected_medal_type, selected_year_value)`:
filter to the selected year when one is given, group by country, keep the 10
largest sums. -/
def update_bar_chart (tbl : List PRow) (m : String) (y : YearVal) : Except String Chart :=
  match colFn m with
  | Option.none => Except.error (keyError m)
  | Option.some v =>
    let current := match y with
      | YearVal.all => tbl
      | YearVal.year yv => tbl.filter (fun r => decide (r.year = yv))
    Except.ok (barFig m (yearTitleSegment tbl y) (nlargestBy 10 Prod.snd (countryTotals current v)))

/-- One invocation of a chart callback with its selector arguments. -/
inductive ChartCall where
  | pie : Option String → ChartCall
  | mapc : String → ChartCall
  | area : String → ChartCall
  | bar : String → YearVal → ChartCall
deriving DecidableEq

/-- Dispatch one callback invocation against the immutable prepared table. -/
def runCall (tbl : List PRow) : ChartCall → Except String Chart
  | ChartCall.pie c => update_pie_chart tbl c
  | ChartCall.mapc m => update_map_chart tbl m
  | ChartCall.area m => update_area_chart tbl m
  | ChartCall.bar m y => update_bar_chart tbl m y

/-- A serialized sequence of callback invocations, as the single-threaded
reactive runtime performs them: the table is read-only, so a run is just the
list of the individual results. -/
def runSeq (tbl : List PRow) (calls : List ChartCall) : List (Except String Chart) :=
  calls.map (runCall tbl)

/-- A small concrete raw table used to instantiate the theorems. -/
def sampleRaw : List RawRow :=
  [ { year := 2016, host_country := ("Brazil"), host_city := ("Rio de Janeiro"),
      country_Name := ("United States"), country_Code := ("USA"),
      gold := 46, silver := 37, bronze := 38 },
    { year := 2016, host_country := ("Brazil"), host_city := ("Rio de Janeiro"),
      country_Name := ("Brazil"), country_Code := ("BRA"),
      gold := 7, silver := 6, bronze := 6 },
    { year := 2012, host_country := ("United Kingdom"), host_city := ("London"),
      country_Name := ("Brazil"), country_Code := ("BRA"),
      gold := 3, silver := 5, bronze := 9 },
    { year := 2012, host_country := ("United Kingdom"), host_city := ("London"),
      country_Name := ("China"), country_Code := ("CHN"),
      gold := 38, silver := 31, bronze := 22 },
    { year := 1988, host_country := ("South Korea"), host_city := ("Seoul"),
      country_Name := ("China"), country_Code := ("CHN"),
      gold := 5, silver := 11, bronze := 12 },
    { year := 2016, host_country := ("Brazil"), host_city := ("Rio de Janeiro"),
      country_Name := ("Germany"), country_Code := ("GER"),
      gold := 17, silver := 10, bronze := 15 } ]

/-- The prepared sample table. -/
def sampleTbl : List PRow := prepare sampleRaw

/-- The prepared row arising from the sample `United States` raw row. -/
def sampleRowUS : PRow :=
  { year := 2016, host_country := ("Brazil"), host_city := ("Rio de Janeiro"),
    country_Name := ("United States of America"), country_Code := ("USA"),
    gold := 46, silver := 37, bronze := 38, total_Medals := 121 }

/-! Helper lemmas about the embedded tabular operations. -/

theorem mem_dedupFirst {α : Type} [DecidableEq α] (a : α) :
    ∀ l : List α, a ∈ dedupFirst l ↔ a ∈ l := by
  intro l
  induction l with
  | nil => simp [dedupFirst]
  | cons b t ih =>
    simp only [dedupFirst, List.mem_cons, List.mem_filter, ih, decide_eq_true_eq]
    by_cases h : a = b <;> simp [h]

theorem nodup_dedupFirst {α : Type} [DecidableEq α] :
    ∀ l : List α, (dedupFirst l).Nodup := by
  intro l
  induction l with
  | nil => simp [dedupFirst]
  | cons b t ih =>
    simp only [dedupFirst, List.nodup_cons]
    constructor
    · simp [List.mem_filter]
    · exact ih.filter _

theorem groupSum_map_fst {κ : Type} [DecidableEq κ] (r : κ → κ → Prop) [DecidableRel r]
    (key : PRow → κ) (v : PRow → Nat) (rows : List PRow) :
    (groupSum r key v rows).map Prod.fst = List.insertionSort r (dedupFirst (rows.map key)) := by
  simp [groupSum, List.map_map, Function.comp_def]

theorem mem_groupSum_fst {κ : Type} [DecidableEq κ] (r : κ → κ → Prop) [DecidableRel r]
    (key : PRow → κ) (v : PRow → Nat) (rows : List PRow) (c : κ) :
    c ∈ (groupSum r key v rows).map Prod.fst ↔ c ∈ rows.map key := by
  rw [groupSum_map_fst, List.mem_insertionSort, mem_dedupFirst]

theorem nodup_groupSum_fst {κ : Type} [DecidableEq κ] (r : κ → κ → Prop) [DecidableRel r]
    (key : PRow → κ) (v : PRow → Nat) (rows : List PRow) :
    ((groupSum r key v rows).map Prod.fst).Nodup := by
  rw [groupSum_map_fst]
  exact (List.perm_insertionSort r _).nodup_iff.mpr (nodup_dedupFirst _)

theorem sum_map_addFn {α : Type} (l : List α) (f g : α → Nat) :
    (l.map (fun x => f x + g x)).sum = (l.map f).sum + (l.map g).sum := by
  induction l with
  | nil => rfl
  | cons a t ih =>
    simp only [List.map_cons, List.sum_cons, ih]
    omega

theorem sum_map_ite_zero {κ : Type} [DecidableEq κ] (k0 : κ) (c : Nat) :
    ∀ l : List κ, k0 ∉ l → (l.map (fun k => if k0 = k then c else 0)).sum = 0 := by
  intro l
  induction l with
  | nil => intro _; rfl
  | cons b t ih =>
    intro h
    have hb : ¬ k0 = b := fun e => h (e ▸ List.mem_cons_self b t)
    simp only [List.map_cons, List.sum_cons, if_neg hb,
      ih (fun ht => h (List.mem_cons_of_mem b ht))]

theorem sum_map_ite_of_mem {κ : Type} [DecidableEq κ] (k0 : κ) (c : Nat) :
    ∀ l : List κ, l.Nodup → k0 ∈ l → (l.map (fun k => if k0 = k then c else 0)).sum = c := by
  intro l
  induction l with
  | nil => intro _ h; simp at h
  | cons b t ih =>
    intro hnd hmem
    rw [List.nodup_cons] at hnd
    rcases List.mem_cons.mp hmem with he | ht
    · subst he
      simp [sum_map_ite_zero k0 c t hnd.1]
    · have hne : ¬ k0 = b := fun e => hnd.1 (e ▸ ht)
      simp [hne, ih hnd.2 ht]

theorem sum_filter_partition {κ : Type} [DecidableEq κ] (key : PRow → κ) (v : PRow → Nat)
    (keys : List κ) (hnd : keys.Nodup) :
    ∀ rows : List PRow, (∀ x ∈ rows, key x ∈ keys) →
      (keys.map (fun k => ((rows.filter (fun x => decide (key x = k))).map v).sum)).sum
        = (rows.map v).sum := by
  intro rows
  induction rows with
  | nil => intro _; simp
  | cons a rs ih =>
    intro hcov
    have hka : key a ∈ keys := hcov a (List.mem_cons_self a rs)
    have hrs : ∀ x ∈ rs, key x ∈ keys := fun x hx => hcov x (List.mem_cons_of_mem a hx)
    have hsplit : ∀ k ∈ keys,
        (((a :: rs).filter (fun x => decide (key x = k))).map v).sum
          = (if key a = k then v a else 0)
            + ((rs.filter (fun x => decide (key x = k))).map v).sum := by
      intro k _
      by_cases h : key a = k
      · simp [List.filter_cons, h]
      · simp [List.filter_cons, h]
    rw [List.map_congr_left hsplit, sum_map_addFn, ih hrs,
      sum_map_ite_of_mem (key a) (v a) keys hnd hka]
    simp

theorem sum_groupSum {κ : Type} [DecidableEq κ] (r : κ → κ → Prop) [DecidableRel r]
    (key : PRow → κ) (v : PRow → Nat) (rows : List PRow) :
    ((groupSum r key v rows).map Prod.snd).sum = (rows.map v).sum := by
  have hnd : (List.insertionSort r (dedupFirst (rows.map key))).Nodup :=
    (List.perm_insertionSort r _).nodup_iff.mpr (nodup_dedupFirst _)
  have hcov : ∀ x ∈ rows, key x ∈ List.insertionSort r (dedupFirst (rows.map key)) := by
    intro x hx
    rw [List.mem_insertionSort, mem_dedupFirst]
    exact List.mem_map_of_mem key hx
  have h := sum_filter_partition key v _ hnd rows hcov
  simpa [groupSum, List.map_map, Function.comp_def] using h

theorem mem_of_mem_nlargestBy {α : Type} (n : Nat) (v : α → Nat) (l : List α) (x : α)
    (h : x ∈ nlargestBy n v l) : x ∈ l := by
  unfold nlargestBy at h
  exact (List.mem_insertionSort _).mp (List.mem_of_mem_take h)

theorem top10_from_rows (tbl : List PRow) (v : PRow → Nat) (c : String)
    (h : c ∈ top10Countries tbl v) : ∃ x ∈ tbl, x.country_Name = c := by
  unfold top10Countries at h
  rcases List.mem_map.mp h with ⟨p, hp, hpc⟩
  have hp2 : p ∈ countryTotals tbl v := mem_of_mem_nlargestBy _ _ _ _ hp
  have hp3 : p.1 ∈ (countryTotals tbl v).map Prod.fst := List.mem_map_of_mem _ hp2
  have hp4 : p.1 ∈ tbl.map PRow.country_Name := by
    rw [countryTotals] at hp3
    exact (mem_groupSum_fst _ _ _ _ _).mp hp3
  rcases List.mem_map.mp hp4 with ⟨x, hx, hxc⟩
  exact ⟨x, hx, hxc.trans hpc⟩

theorem colFn_of_mem (m : String) (hm : m ∈ medal_types) :
    ∃ v, colFn m = Option.some v := by
  simp only [medal_types, List.mem_cons, List.not_mem_nil, or_false] at hm
  rcases hm with h | h | h | h <;> subst h <;> exact ⟨_, rfl⟩

theorem update_pie_chart_ok (tbl : List PRow) (c : Option String) :
    ∃ ch, update_pie_chart tbl c = Except.ok ch := by
  cases c with
  | none => exact ⟨_, rfl⟩
  | some s =>
    simp only [update_pie_chart]
    by_cases h1 : s.isEmpty
    · simp [h1]
    · simp only [h1, Bool.false_eq_true, if_false]
      by_cases h2 : (tbl.filter (fun r => decide (r.country_Name = s))).isEmpty
      · simp [h2]
      · simp [h2]

theorem update_map_chart_eq (tbl : List PRow) (m : String) (v : PRow → Nat)
    (hv : colFn m = Option.some v) :
    update_map_chart tbl m = Except.ok (mapFig m (countryTotals tbl v)) := by
  simp [update_map_chart, hv]

theorem update_area_chart_eq (tbl : List PRow) (m : String) (v : PRow → Nat)
    (hv : colFn m = Option.some v) :
    update_area_chart tbl m = Except.ok (areaFig m
      (((groupSum pairLe (fun r => (r.country_Name, r.year)) v tbl).filter
          (fun p => decide (p.1.1 ∈ top10Countries tbl v))).map
        (fun p => (p.1.1, p.1.2, p.2)))) := by
  simp [update_area_chart, hv]

theorem update_bar_chart_all_eq (tbl : List PRow) (m : String) (v : PRow → Nat)
    (hv : colFn m = Option.some v) :
    update_bar_chart tbl m YearVal.all
      = Except.ok (barFig m allYearsLabel (nlargestBy 10 Prod.snd (countryTotals tbl v))) := by
  simp [update_bar_chart, hv, yearTitleSegment]

theorem update_bar_chart_year_eq (tbl : List PRow) (m : String) (v : PRow → Nat) (yv : Nat)
    (hv : colFn m = Option.some v) :
    update_bar_chart tbl m (YearVal.year yv)
      = Except.ok (barFig m (yearTitleSegment tbl (YearVal.year yv))
          (nlargestBy 10 Prod.snd
            (countryTotals (tbl.filter (fun r => decide (r.year = yv))) v))) := by
  simp [update_bar_chart, hv]

theorem area_countries_iff_top10 (tbl : List PRow) (v : PRow → Nat) (c : String) :
    c ∈ ((((groupSum pairLe (fun r => (r.country_Name, r.year)) v tbl).filter
          (fun p => decide (p.1.1 ∈ top10Countries tbl v))).map
        (fun p => (p.1.1, p.1.2, p.2))).map (fun p => p.1))
      ↔ c ∈ top10Countries tbl v := by
  constructor
  · intro h
    rcases List.mem_map.mp h with ⟨q, hq, hqc⟩
    rcases List.mem_map.mp hq with ⟨p, hp, hpq⟩
    have hdec := (List.mem_filter.mp hp).2
    have hmem : p.1.1 ∈ top10Countries tbl v := of_decide_eq_true hdec
    rw [← hqc, ← hpq]
    exact hmem
  · intro h
    rcases top10_from_rows tbl v c h with ⟨x, hx, hxc⟩
    have hkey : ((c, x.year) : String × Nat) ∈ tbl.map (fun r => (r.country_Name, r.year)) :=
      List.mem_map.mpr ⟨x, hx, by rw [hxc]⟩
    have hkey2 : ((c, x.year) : String × Nat)
        ∈ (groupSum pairLe (fun r => (r.country_Name, r.year)) v tbl).map Prod.fst :=
      (mem_groupSum_fst _ _ _ _ _).mpr hkey
    rcases List.mem_map.mp hkey2 with ⟨p, hp, hpk⟩
    have hc1 : p.1.1 = c := by rw [hpk]
    have hfil : p ∈ (groupSum pairLe (fun r => (r.country_Name, r.year)) v tbl).filter
        (fun p => decide (p.1.1 ∈ top10Countries tbl v)) :=
      List.mem_filter.mpr ⟨hp, decide_eq_true (hc1 ▸ h)⟩
    exact List.mem_map.mpr ⟨(p.1.1, p.1.2, p.2), List.mem_map.mpr ⟨p, hfil, rfl⟩, hc1⟩

/-- C1: each of the four chart-update callbacks is stateless and deterministic:
two invocations with the same selector arguments over the same immutable
prepared table return identical chart specifications, and the result of an
invocation inside a serialized callback sequence is independent of the calls
around it (no state is retained between invocations). -/
theorem chart_callbacks_stateless_deterministic (tbl : List PRow) :
    (∀ c1 c2 : ChartCall, c1 = c2 → runCall tbl c1 = runCall tbl c2) ∧
    (∀ (pre post : List ChartCall) (c : ChartCall),
      runSeq tbl (pre ++ c :: post)
        = runSeq tbl pre ++ runCall tbl c :: runSeq tbl post) := by
  constructor
  · intro c1 c2 h
    rw [h]
  · intro pre post c
    simp [runSeq]

/-- Witness for C1 at the sample table and a concrete repeated invocation. -/
theorem chart_callbacks_stateless_deterministic_witness :
    runCall sampleTbl (ChartCall.bar ("Gold") YearVal.all)
      = runCall sampleTbl (ChartCall.bar ("Gold") YearVal.all) :=
  (chart_callbacks_stateless_deterministic sampleTbl).1 _ _ rfl

/-- C2: every row of the prepared table satisfies
`Total_Medals = Gold + Silver + Bronze`; the field is derived during
preparation, never independently stored. -/
theorem total_medals_is_derived (raw : List RawRow) :
    ∀ r ∈ prepare raw, r.total_Medals = r.gold + r.silver + r.bronze := by
  intro r hr
  simp only [prepare] at hr
  rcases List.mem_map.mp hr with ⟨x, _, hxr⟩
  rw [← hxr]

/-- Witness for C2 at a concrete prepared row of the sample table. -/
theorem total_medals_is_derived_witness :
    sampleRowUS ∈ prepare sampleRaw ∧
      sampleRowUS.total_Medals = sampleRowUS.gold + sampleRowUS.silver + sampleRowUS.bronze :=
  ⟨by decide, total_medals_is_derived sampleRaw sampleRowUS (by decide)⟩

/-- C3: for every valid medal-type key, the set of countries kept by the area
callback equals the set of countries in the bar callback's result when the
year selector is `'All'`: both derive it from the same full-range per-country
totals. -/
theorem area_bar_top10_same_set (tbl : List PRow) (m : String) (hm : m ∈ medal_types) :
    ∃ chA chB, update_area_chart tbl m = Except.ok chA ∧
      update_bar_chart tbl m YearVal.all = Except.ok chB ∧
      ∀ c : String,
        c ∈ chA.seriesPoints.map (fun p => p.1) ↔ c ∈ chB.points.map Prod.fst := by
  rcases colFn_of_mem m hm with ⟨v, hv⟩
  refine ⟨_, _, update_area_chart_eq tbl m v hv, update_bar_chart_all_eq tbl m v hv, ?_⟩
  intro c
  simp only [areaFig, barFig]
  exact area_countries_iff_top10 tbl v c

/-- Witness for C3 at the sample table with the `Gold` key. -/
theorem area_bar_top10_same_set_witness :
    (("Gold") ∈ medal_types) ∧
      (∃ chA chB, update_area_chart sampleTbl ("Gold") = Except.ok chA ∧
        update_bar_chart sampleTbl ("Gold") YearVal.all = Except.ok chB ∧
        ∀ c : String,
          c ∈ chA.seriesPoints.map (fun p => p.1) ↔ c ∈ chB.points.map Prod.fst) :=
  ⟨by decide, area_bar_top10_same_set sampleTbl ("Gold") (by decide)⟩

/-- C4: for every valid medal-type key, the per-country values of the map
callback sum to the sum of the selected column over the whole prepared table:
no year filtering and no top-N restriction happen inside the map callback. -/
theorem map_chart_sum_preserved (tbl : List PRow) (m : String) (hm : m ∈ medal_types) :
    ∃ v ch, colFn m = Option.some v ∧ update_map_chart tbl m = Except.ok ch ∧
      (ch.points.map Prod.snd).sum = (tbl.map v).sum := by
  rcases colFn_of_mem m hm with ⟨v, hv⟩
  refine ⟨v, mapFig m (countryTotals tbl v), hv, update_map_chart_eq tbl m v hv, ?_⟩
  simp only [mapFig, countryTotals]
  exact sum_groupSum _ _ _ _

/-- Witness for C4 at the sample table with the `Total_Medals` key. -/
theorem map_chart_sum_preserved_witness :
    (("Total_Medals") ∈ medal_types) ∧
      (∃ v ch, colFn ("Total_Medals") = Option.some v ∧
        update_map_chart sampleTbl ("Total_Medals") = Except.ok ch ∧
        (ch.points.map Prod.snd).sum = (sampleTbl.map v).sum) :=
  ⟨by decide, map_chart_sum_preserved sampleTbl ("Total_Medals") (by decide)⟩

/-- C5: the pie callback never raises: an absent or empty country selection
yields the placeholder figure with the `no country selected` annotation, a
country without matching rows yields the placeholder figure with the distinct
`data unavailable` annotation, and both placeholders are valid charts with no
slice data. -/
theorem pie_chart_edge_cases (tbl : List PRow) (s : String) (hs : ¬ s = (""))
    (hnone : (tbl.filter (fun r => decide (r.country_Name = s))).isEmpty = true) :
    update_pie_chart tbl Option.none = Except.ok pieNoCountryFig ∧
    update_pie_chart tbl (Option.some ("")) = Except.ok pieNoCountryFig ∧
    update_pie_chart tbl (Option.some s) = Except.ok (pieNoDataFig s) ∧
    pieNoCountryFig.annots = [("Nenhum país selecionado")] ∧
    (pieNoDataFig s).annots = [("Dados não disponíveis")] ∧
    ¬ pieNoCountryFig.annots = (pieNoDataFig s).annots ∧
    pieNoCountryFig.points = [] ∧ (pieNoDataFig s).points = [] := by
  have hempty : s.isEmpty = false := by
    rw [Bool.eq_false_iff]
    intro h
    exact hs ((String.isEmpty_iff s).mp h)
  refine ⟨rfl, rfl, ?_, rfl, rfl, ?_, rfl, rfl⟩
  · simp [update_pie_chart, hempty, hnone]
  · simp only [pieNoCountryFig, pieNoDataFig]
    decide

/-- Witness for C5 at the sample table with a country absent from it. -/
theorem pie_chart_edge_cases_witness :
    (¬ ("Atlantis") = ("")) ∧
      ((sampleTbl.filter (fun r => decide (r.country_Name = ("Atlantis")))).isEmpty = true) ∧
      (update_pie_chart sampleTbl Option.none = Except.ok pieNoCountryFig ∧
        update_pie_chart sampleTbl (Option.some ("")) = Except.ok pieNoCountryFig ∧
        update_pie_chart sampleTbl (Option.some ("Atlantis"))
          = Except.ok (pieNoDataFig ("Atlantis")) ∧
        pieNoCountryFig.annots = [("Nenhum país selecionado")] ∧
        (pieNoDataFig ("Atlantis")).annots = [("Dados não disponíveis")] ∧
        ¬ pieNoCountryFig.annots = (pieNoDataFig ("Atlantis")).annots ∧
        pieNoCountryFig.points = [] ∧ (pieNoDataFig ("Atlantis")).points = []) :=
  ⟨by decide, by decide, pie_chart_edge_cases sampleTbl ("Atlantis") (by decide) (by decide)⟩

/-- C6: with a specific year selected, the bar callback restricts rows to that
year before grouping, so every country appearing in the bar result has at
least one record in that year. -/
theorem bar_specific_year_countries (tbl : List PRow) (m : String) (yv : Nat)
    (hm : m ∈ medal_types) :
    ∃ ch, update_bar_chart tbl m (YearVal.year yv) = Except.ok ch ∧
      ∀ c ∈ ch.points.map Prod.fst, ∃ x ∈ tbl, x.year = yv ∧ x.country_Name = c := by
  rcases colFn_of_mem m hm with ⟨v, hv⟩
  refine ⟨_, update_bar_chart_year_eq tbl m v yv hv, ?_⟩
  intro c hc
  simp only [barFig] at hc
  rcases List.mem_map.mp hc with ⟨p, hp, hpc⟩
  have hp2 : p ∈ countryTotals (tbl.filter (fun r => decide (r.year = yv))) v :=
    mem_of_mem_nlargestBy _ _ _ _ hp
  have hp3 : p.1 ∈ (tbl.filter (fun r => decide (r.year = yv))).map PRow.country_Name := by
    have hm1 := List.mem_map_of_mem Prod.fst hp2
    rw [countryTotals] at hm1
    exact (mem_groupSum_fst _ _ _ _ _).mp hm1
  rcases List.mem_map.mp hp3 with ⟨x, hx, hxc⟩
  have hx2 := List.mem_filter.mp hx
  exact ⟨x, hx2.1, of_decide_eq_true hx2.2, hxc.trans hpc⟩

/-- Witness for C6 at the sample table, year 2016, `Gold` key. -/
theorem bar_specific_year_countries_witness :
    (("Gold") ∈ medal_types) ∧
      (∃ ch, update_bar_chart sampleTbl ("Gold") (YearVal.year 2016) = Except.ok ch ∧
        ∀ c ∈ ch.points.map Prod.fst,
          ∃ x ∈ sampleTbl, x.year = 2016 ∧ x.country_Name = c) :=
  ⟨by decide, bar_specific_year_countries sampleTbl ("Gold") 2016 (by decide)⟩

/-- C7: the four callbacks are total on the selector domain the layout offers:
for every medal-type key of the dropdown, every year value of the generated
year options, and every country selection that is absent, empty, or drawn
from the generated country list, no callback returns an error. -/
theorem chart_callbacks_total (tbl : List PRow) (m : String) (y : YearVal) (c : Option String)
    (hm : m ∈ medal_types)
    (_hy : y ∈ (year_options tbl).map YearOption.value)
    (_hc : c = Option.none ∨ c = Option.some ("") ∨
      ∃ s, c = Option.some s ∧ s ∈ all_countries tbl) :
    (∃ ch, update_pie_chart tbl c = Except.ok ch) ∧
    (∃ ch, update_map_chart tbl m = Except.ok ch) ∧
    (∃ ch, update_area_chart tbl m = Except.ok ch) ∧
    (∃ ch, update_bar_chart tbl m y = Except.ok ch) := by
  rcases colFn_of_mem m hm with ⟨v, hv⟩
  refine ⟨update_pie_chart_ok tbl c, ⟨_, update_map_chart_eq tbl m v hv⟩,
    ⟨_, update_area_chart_eq tbl m v hv⟩, ?_⟩
  cases y with
  | all => exact ⟨_, update_bar_chart_all_eq tbl m v hv⟩
  | year yv => exact ⟨_, update_bar_chart_year_eq tbl m v yv hv⟩

/-- Witness for C7 at the sample table with concrete selector values. -/
theorem chart_callbacks_total_witness :
    (("Gold") ∈ medal_types) ∧
    (YearVal.all ∈ (year_options sampleTbl).map YearOption.value) ∧
    ((Option.some ("Brazil") : Option String) = Option.none ∨
      (Option.some ("Brazil") : Option String) = Option.some ("") ∨
      ∃ s, (Option.some ("Brazil") : Option String) = Option.some s ∧
        s ∈ all_countries sampleTbl) ∧
    ((∃ ch, update_pie_chart sampleTbl (Option.some ("Brazil")) = Except.ok ch) ∧
      (∃ ch, update_map_chart sampleTbl ("Gold") = Except.ok ch) ∧
      (∃ ch, update_area_chart sampleTbl ("Gold") = Except.ok ch) ∧
      (∃ ch, update_bar_chart sampleTbl ("Gold") YearVal.all = Except.ok ch)) :=
  ⟨by decide, by decide, Or.inr (Or.inr ⟨("Brazil"), rfl, by decide⟩),
    chart_callbacks_total sampleTbl ("Gold") YearVal.all (Option.some ("Brazil"))
      (by decide) (by decide) (Or.inr (Or.inr ⟨("Brazil"), rfl, by decide⟩))⟩

/-- C8: when the selected specific year value comes from the generated year
options, the label lookup in the bar callback succeeds: the title embeds the
matching option's label and the string-fallback branch is not taken. -/
theorem bar_title_uses_option_label (tbl : List PRow) (m : String) (yv : Nat)
    (hm : m ∈ medal_types)
    (hy : YearVal.year yv ∈ (year_options tbl).map YearOption.value) :
    ∃ o ∈ year_options tbl, o.value = YearVal.year yv ∧
      yearTitleSegment tbl (YearVal.year yv) = o.label ∧
      ∃ ch, update_bar_chart tbl m (YearVal.year yv) = Except.ok ch ∧
        ch.title = ("Top 10 países por ") ++ (m.replace ("_") (" "))
          ++ (" em ") ++ o.label := by
  have hex : ∃ o, o ∈ year_options tbl ∧ decide (o.value = YearVal.year yv) = true := by
    rcases List.mem_map.mp hy with ⟨o, ho, hov⟩
    exact ⟨o, ho, decide_eq_true hov⟩
  have hsome : ((year_options tbl).find?
      (fun o => decide (o.value = YearVal.year yv))).isSome := by
    rw [List.find?_isSome]
    exact hex
  rcases Option.isSome_iff_exists.mp hsome with ⟨o, ho⟩
  have hmem := List.mem_of_find?_eq_some ho
  have hval : o.value = YearVal.year yv := by
    have h2 := List.find?_some ho
    simpa using h2
  have hseg : yearTitleSegment tbl (YearVal.year yv) = o.label := by
    simp [yearTitleSegment, ho]
  rcases colFn_of_mem m hm with ⟨v, hv⟩
  refine ⟨o, hmem, hval, hseg, _, update_bar_chart_year_eq tbl m v yv hv, ?_⟩
  simp [barFig, hseg]

/-- Witness for C8 at the sample table, year 2016, `Gold` key. -/
theorem bar_title_uses_option_label_witness :
    (("Gold") ∈ medal_types) ∧
    (YearVal.year 2016 ∈ (year_options sampleTbl).map YearOption.value) ∧
    (∃ o ∈ year_options sampleTbl, o.value = YearVal.year 2016 ∧
      yearTitleSegment sampleTbl (YearVal.year 2016) = o.label ∧
      ∃ ch, update_bar_chart sampleTbl ("Gold") (YearVal.year 2016) = Except.ok ch ∧
        ch.title = ("Top 10 países por ") ++ (("Gold").replace ("_") (" "))
          ++ (" em ") ++ o.label) :=
  ⟨by decide, by decide,
    bar_title_uses_option_label sampleTbl ("Gold") 2016 (by decide) (by decide)⟩

/-- C9: the year-option list is the `'All'` sentinel followed by one option per
distinct `(Year, Host_city, Host_country)` triple of the prepared table, in
ascending year order, with value the year and label built from the triple. -/
theorem year_options_shape (tbl : List PRow) :
    year_options tbl
        = { label := allYearsLabel, value := YearVal.all } ::
            (year_host_info tbl).map
              (fun t => { label := yearOptionLabel t, value := YearVal.year t.1 }) ∧
    (∀ t : Nat × String × String,
      t ∈ year_host_info tbl ↔ t ∈ tbl.map (fun r => (r.year, r.host_city, r.host_country))) ∧
    (year_host_info tbl).Nodup ∧
    (year_host_info tbl).Pairwise (fun a b => a.1 ≤ b.1) := by
  refine ⟨rfl, ?_, ?_, ?_⟩
  · intro t
    rw [year_host_info, List.mem_insertionSort, mem_dedupFirst]
  · exact (List.perm_insertionSort _ _).nodup_iff.mpr (nodup_dedupFirst _)
  · exact List.sorted_insertionSort yearLe _

/-- Witness for C9 at the sample table. -/
theorem year_options_shape_witness :
    year_options sampleTbl
        = { label := allYearsLabel, value := YearVal.all } ::
            (year_host_info sampleTbl).map
              (fun t => { label := yearOptionLabel t, value := YearVal.year t.1 }) ∧
    (∀ t : Nat × String × String,
      t ∈ year_host_info sampleTbl
        ↔ t ∈ sampleTbl.map (fun r => (r.year, r.host_city, r.host_country))) ∧
    (year_host_info sampleTbl).Nodup ∧
    (year_host_info sampleTbl).Pairwise (fun a b => a.1 ≤ b.1) :=
  year_options_shape sampleTbl

/-- C10: after loading, no `Country_Name` of the prepared table equals
`United States` (every occurrence was rewritten during loading), and hence no
entry of the derived sorted country list equals it either. -/
theorem no_united_states_after_load (raw : List RawRow) :
    (∀ r ∈ prepare raw, ¬ r.country_Name = ("United States")) ∧
    (∀ c ∈ all_countries (prepare raw), ¬ c = ("United States")) := by
  have hrow : ∀ r ∈ prepare raw, ¬ r.country_Name = ("United States") := by
    intro r hr
    simp only [prepare] at hr
    rcases List.mem_map.mp hr with ⟨x, hx, hxr⟩
    have hx2 : x ∈ loadClean raw := (List.mem_filter.mp hx).1
    simp only [loadClean] at hx2
    rcases List.mem_map.mp hx2 with ⟨x0, _, hx0⟩
    have hxc : x.country_Name = replaceCountry x0.country_Name := by
      rw [← hx0]
    have hne : ¬ replaceCountry x0.country_Name = ("United States") := by
      unfold replaceCountry
      by_cases h : x0.country_Name = ("United States")
      · simp [h]
      · simp [h]
    rw [← hxr]
    simpa [hxc] using hne
  refine ⟨hrow, ?_⟩
  intro c hc
  simp only [all_countries] at hc
  rw [List.mem_insertionSort, mem_dedupFirst] at hc
  rcases List.mem_map.mp hc with ⟨r, hr, hrc⟩
  rw [← hrc]
  exact hrow r hr

/-- Witness for C10 at the sample table, whose raw data contains a
`United States` row. -/
theorem no_united_states_after_load_witness :
    sampleRowUS ∈ prepare sampleRaw ∧ ¬ sampleRowUS.country_Name = ("United States") :=
  ⟨by decide, (no_united_states_after_load sampleRaw).1 sampleRowUS (by decide)⟩
